import Mathlib

/-
Verification of dragino GPShandler.py (class GPS).

Shallow embedding: the mutable instance state of a `GPS` object is a
`GPSState` record; the sentences delivered by the gpsd socket are modelled
as already-decoded JSON-ish values (`RawMsg`); Python exceptions that the
code can raise or catch are the `PyErr` taxonomy; time() calls are explicit
rational parameters.  Numeric JSON values are rationals; JSON strings are
Lean strings.  Python dicts holding sentences are association lists where
assignment overwrites in place the first matching key.
-/

namespace GPShandler

/-- A JSON scalar value, as far as GPShandler inspects one: numbers
(lat, lon, alt, time, hdop, mode), strings (class names, ISO times) and
null.  Rationals stand for Python floats/ints. -/
inductive JVal where
  | num (q : ℚ)
  | str (s : String)
  | jnull
  deriving DecidableEq, Repr

/-- Fields of a decoded JSON object, an association list as Python dicts
are; `jLookup` is `d[k]` (first match), `jSet` is `d[k] = v`. -/
abbrev JFields := List (String × JVal)

/-- A successfully decoded JSON document: either an object (dict) or some
other JSON value (array, bare number, ...) whose item assignment
`data["lastReadingTime"] = ...` raises TypeError. -/
inductive JData where
  | obj (fields : JFields)
  | nonObj
  deriving DecidableEq, Repr

/-- Python dict read `d[k]`: value of the first matching key, if any. -/
def jLookup (k : String) (f : JFields) : Option JVal :=
  match f with
  | [] => none
  | (k', v) :: t => if k' = k then some v else jLookup k t

/-- Python dict write `d[k] = v`: overwrite the first matching key in
place, or append the new key. -/
def jSet (f : JFields) (k : String) (v : JVal) : JFields :=
  match f with
  | [] => [(k, v)]
  | (k', v') :: t => if k' = k then (k, v) :: t else (k', v') :: jSet t k v

/-- The result of one `self.gpsd_socket.next()` poll followed by decoding:
the socket read may itself raise (`readError`), yield nothing (`noData`,
the `new_data is None` branch), yield bytes `json.loads` rejects
(`malformed`), or yield a decoded JSON document. -/
inductive RawMsg where
  | readError
  | noData
  | malformed
  | data (j : JData)
  deriving DecidableEq, Repr

/-- Python exceptions relevant to GPShandler.  `uninitializedState` is the
distinct condition named by the specification; the code itself never
raises it. -/
inductive PyErr where
  | keyError
  | typeError
  | attributeError
  | jsonDecodeError
  | uninitializedState
  deriving DecidableEq, Repr

/-- The mutable instance state of a `GPS` object: the snapshot fields set
in `__init__` (all `None`) plus the sentence cache `self.gps_cache`, keyed
by the sentence's `class` value. -/
structure GPSState where
  lat : Option JVal
  lon : Option JVal
  alt : Option JVal
  hdop : Option JVal
  timestamp : Option JVal
  lastGpsReading : Option ℚ
  gps_cache : List (JVal × JData)
  deriving DecidableEq, Repr

/-- Cache write `self.gps_cache[data["class"]] = data`. -/
def cacheSet (c : List (JVal × JData)) (k : JVal) (v : JData) :
    List (JVal × JData) :=
  match c with
  | [] => [(k, v)]
  | (k', v') :: t => if k' = k then (k, v) :: t else (k', v') :: cacheSet t k v

/-- State after `__init__`: every snapshot field `None`, empty cache. -/
def initState : GPSState :=
  { lat := none, lon := none, alt := none, hdop := none,
    timestamp := none, lastGpsReading := none, gps_cache := [] }

/-- Module-level constant `VERBOSE=False` of GPShandler.py. -/
def VERBOSE : Bool := false

/-- The attribute names a `GPS` instance actually has (set in `__init__`
or by `update_gps`).  `gpc_cache`, which `getSentences` reads, is not
among them, so that read raises AttributeError. -/
def gpsInstanceAttrs : List String :=
  ["logger", "isThreaded", "threadLoopDelay", "lat", "lon", "alt", "hdop",
   "timestamp", "lastGpsReading", "gpsd_socket", "data_stream", "running",
   "stopped", "gpsThread", "gps_cache"]

/-- The method names of Python `str` that GPShandler could plausibly mean;
`upper` exists, `toupper` does not, so `which.toupper` raises
AttributeError. -/
def strMethods : List String := ["upper", "lower", "title", "capitalize"]

/-- Body of the `try:` block of `update_gps` (lines 159-201): returns the
state after whatever mutations happened, paired with the exception that
escaped the block, if any.  Python keeps mutations made before an
exception, so both components matter. -/
def poll_body (st : GPSState) (msg : RawMsg) (tCache tFix : ℚ) :
    GPSState × Option PyErr :=
  match msg with
  | .readError => (st, some .typeError)
  | .noData => (st, none)
  | .malformed => (st, some .jsonDecodeError)
  | .data (.nonObj) => (st, some .typeError)
  | .data (.obj fields) =>
    -- data["lastReadingTime"] = time()  (mutates only the local dict)
    let data := jSet fields "lastReadingTime" (.num tCache)
    match jLookup "class" data with
    | none => (st, some .keyError)  -- self.gps_cache[data["class"]] raises
    | some cls =>
      let st1 := { st with gps_cache := cacheSet st.gps_cache cls (.obj data) }
      if cls = .str "TPV" then
        match jLookup "mode" data with
        | none => (st1, some .keyError)  -- data["mode"] raises, outer except
        | some m =>
          if m = .num 0 ∨ m = .num 1 then
            (st1, none)  -- "No GPS fix (yet)"; return
          else
            -- try: sequential field assignments; except KeyError: logged,
            -- assignments already made persist
            match jLookup "lat" data with
            | none => (st1, none)
            | some latv =>
              let st2 := { st1 with lat := some latv }
              match jLookup "lon" data with
              | none => (st2, none)
              | some lonv =>
                let st3 := { st2 with lon := some lonv }
                match jLookup "alt" data with
                | none => (st3, none)
                | some altv =>
                  let st4 := { st3 with alt := some altv }
                  match jLookup "time" data with
                  | none => (st4, none)
                  | some tv =>
                    (({ st4 with timestamp := some tv,
                                 lastGpsReading := some tFix } : GPSState),
                     none)
      else if cls = .str "SKY" then
        match jLookup "hdop" data with
        | none => (st1, some .keyError)  -- data["hdop"] raises, outer except
        | some h => ({ st1 with hdop := some h }, none)
      else
        (st1, none)  -- any other class: cached, else-branch pass

/-- The `update_gps` method as callable: the whole body is wrapped in
`try ... except Exception`, which logs and returns normally, so the method
yields the (possibly partially mutated) state and never an exception.  The
second component is what escapes the method. -/
def update_gps_call (st : GPSState) (msg : RawMsg) (tCache tFix : ℚ) :
    GPSState × Option PyErr :=
  match poll_body st msg tCache tFix with
  | (st', none) => (st', none)
  | (st', some _) => (st', none)  -- except Exception as e: logger.warning

/-- State after one `update_gps` call. -/
def update_gps (st : GPSState) (msg : RawMsg) (tCache tFix : ℚ) : GPSState :=
  (update_gps_call st msg tCache tFix).1

/-- One poll iteration's inputs: the message the socket delivered and the
values of the two `time()` calls (line 171 and line 188). -/
structure PollInput where
  msg : RawMsg
  tCache : ℚ
  tFix : ℚ
  deriving DecidableEq, Repr

/-- State after the sampler loop processes a finite sequence of polls. -/
def run (st : GPSState) (inps : List PollInput) : GPSState :=
  inps.foldl (fun s i => update_gps s i.msg i.tCache i.tFix) st

/-- The `get_gps` method: returns the cached snapshot verbatim. -/
def get_gps (st : GPSState) : Option JVal × Option JVal × Option JVal × Option JVal :=
  (st.lat, st.lon, st.alt, st.hdop)

/-- The `get_corrected_timestamp` method:
`datetime.fromtimestamp(self.timestamp) + timedelta(time()-self.lastGpsReading)`.
`fromtimestamp` raises TypeError unless `self.timestamp` is a number;
`time() - None` also raises TypeError; `timedelta`'s first positional
argument is DAYS, so the elapsed seconds are added as days.  The result is
rendered as epoch seconds. -/
def get_corrected_timestamp (st : GPSState) (now : ℚ) : Except PyErr ℚ :=
  match st.timestamp with
  | some (.num ts) =>
    match st.lastGpsReading with
    | some lr => .ok (ts + 86400 * (now - lr))
    | none => .error .typeError
  | _ => .error .typeError

/-- The `getSentence` method: `which = which.toupper()` raises
AttributeError (Python `str` has `upper`, not `toupper`) before any lookup
can happen. -/
def getSentence (st : GPSState) (which : String) :
    Except PyErr (Option JData) :=
  if "toupper" ∈ strMethods then
    let w := which.toUpper
    .ok ((st.gps_cache.find? (fun p => p.1 = .str w)).map Prod.snd)
  else
    .error .attributeError

/-- The `getSentences` method: reads `self.gpc_cache`, an attribute that
is never assigned, so the attribute access raises AttributeError. -/
def getSentences (st : GPSState) : Except PyErr (List JVal) :=
  if "gpc_cache" ∈ gpsInstanceAttrs then
    .ok (st.gps_cache.map Prod.fst)
  else
    .error .attributeError

/-- A message is a valid TPV sentence in the sense of claim C1: a JSON
object with class "TPV", numeric mode 2 or 3, and lat, lon, alt and time
fields all present. -/
def isValidTPV (msg : RawMsg) : Bool :=
  match msg with
  | .data (.obj f) =>
    jLookup "class" f = some (.str "TPV") ∧
    (jLookup "mode" f = some (.num 2) ∨ jLookup "mode" f = some (.num 3)) ∧
    (jLookup "lat" f).isSome ∧ (jLookup "lon" f).isSome ∧
    (jLookup "alt" f).isSome ∧ (jLookup "time" f).isSome
  | _ => false

/-- The fields of a message known to be a decoded JSON object. -/
def msgFields (msg : RawMsg) : JFields :=
  match msg with
  | .data (.obj f) => f
  | _ => []

/-- The class value of a decoded JSON document, when it is an object with
a "class" field. -/
def jClassOf (j : JData) : Option JVal :=
  match j with
  | .obj f => jLookup "class" f
  | .nonObj => none

/-- The PositionSnapshot view of the state: the five fields the
specification groups as the derived position snapshot (lat, lon, alt,
gpsTimestamp, lastFixArrivalTime). -/
def snapshotOf (st : GPSState) :
    Option JVal × Option JVal × Option JVal × Option JVal × Option ℚ :=
  (st.lat, st.lon, st.alt, st.timestamp, st.lastGpsReading)

/-- Writing one key of a dict leaves every other key's lookup unchanged. -/
theorem jLookup_jSet_ne (f : JFields) (k k' : String) (v : JVal)
    (h : k ≠ k') : jLookup k (jSet f k' v) = jLookup k f := by
  have h' : ¬ (k' = k) := fun hk => h hk.symm
  induction f with
  | nil => simp [jSet, jLookup, h']
  | cons a t ih =>
    obtain ⟨ka, va⟩ := a
    by_cases hka : ka = k'
    · subst hka
      simp [jSet, jLookup, h']
    · simp only [jSet, if_neg hka, jLookup, ih]

/-- Processing one TPV sentence with fix mode 2 or 3 and all four expected
fields present caches the stamped sentence under its class and rewrites
the snapshot with the sentence's lat, lon, alt and time, recording the
fix arrival time; hdop is untouched. -/
theorem update_gps_valid_tpv (st : GPSState) (f : JFields) (t1 t2 : ℚ)
    (lv lnv av tv : JVal)
    (hc : jLookup "class" f = some (.str "TPV"))
    (hm : jLookup "mode" f = some (.num 2) ∨ jLookup "mode" f = some (.num 3))
    (hlat : jLookup "lat" f = some lv) (hlon : jLookup "lon" f = some lnv)
    (halt : jLookup "alt" f = some av) (htime : jLookup "time" f = some tv) :
    update_gps st (.data (.obj f)) t1 t2 =
      { st with
        gps_cache := cacheSet st.gps_cache (.str "TPV")
          (.obj (jSet f "lastReadingTime" (.num t1))),
        lat := some lv, lon := some lnv, alt := some av,
        timestamp := some tv, lastGpsReading := some t2 } := by
  have e1 : jLookup "class" (jSet f "lastReadingTime" (.num t1)) =
      some (.str "TPV") :=
    (jLookup_jSet_ne f "class" "lastReadingTime" (.num t1) (by decide)).trans hc
  have e3 : jLookup "lat" (jSet f "lastReadingTime" (.num t1)) = some lv :=
    (jLookup_jSet_ne f "lat" "lastReadingTime" (.num t1) (by decide)).trans hlat
  have e4 : jLookup "lon" (jSet f "lastReadingTime" (.num t1)) = some lnv :=
    (jLookup_jSet_ne f "lon" "lastReadingTime" (.num t1) (by decide)).trans hlon
  have e5 : jLookup "alt" (jSet f "lastReadingTime" (.num t1)) = some av :=
    (jLookup_jSet_ne f "alt" "lastReadingTime" (.num t1) (by decide)).trans halt
  have e6 : jLookup "time" (jSet f "lastReadingTime" (.num t1)) = some tv :=
    (jLookup_jSet_ne f "time" "lastReadingTime" (.num t1) (by decide)).trans htime
  rcases hm with hm | hm <;>
    simp [update_gps, update_gps_call, poll_body, e1, e3, e4, e5, e6,
      (jLookup_jSet_ne f "mode" "lastReadingTime" (.num t1) (by decide)).trans hm]

/-- A message satisfying `isValidTPV` is a JSON object with class "TPV",
mode 2 or 3 and all four expected fields present. -/
theorem isValidTPV_elim (m : RawMsg) (h : isValidTPV m = true) :
    ∃ f lv lnv av tv, m = .data (.obj f) ∧
      jLookup "class" f = some (.str "TPV") ∧
      (jLookup "mode" f = some (.num 2) ∨ jLookup "mode" f = some (.num 3)) ∧
      jLookup "lat" f = some lv ∧ jLookup "lon" f = some lnv ∧
      jLookup "alt" f = some av ∧ jLookup "time" f = some tv := by
  match m with
  | .data (.obj f) =>
    simp only [isValidTPV, decide_eq_true_eq] at h
    obtain ⟨hc, hm, hlat, hlon, halt, htime⟩ := h
    obtain ⟨lv, hlv⟩ := Option.isSome_iff_exists.mp hlat
    obtain ⟨lnv, hlnv⟩ := Option.isSome_iff_exists.mp hlon
    obtain ⟨av, hav⟩ := Option.isSome_iff_exists.mp halt
    obtain ⟨tv, htv⟩ := Option.isSome_iff_exists.mp htime
    exact ⟨f, lv, lnv, av, tv, rfl, hc, hm, hlv, hlnv, hav, htv⟩
  | .readError => simp [isValidTPV] at h
  | .noData => simp [isValidTPV] at h
  | .malformed => simp [isValidTPV] at h
  | .data .nonObj => simp [isValidTPV] at h

/-- C1: after processing a sequence of TPV sentences of fix mode 2 or 3
that contain the lat, lon, alt and time fields, `get_gps` returns exactly
the lat, lon, alt of the most recently processed sentence; the hdop slot
still holds its prior value (the latest SKY sentence's hdop, if any was
ever seen). -/
theorem C1_position_is_last_valid_tpv (st : GPSState) (inps : List PollInput)
    (i : PollInput) (hlast : inps.getLast? = some i)
    (hall : ∀ j ∈ inps, isValidTPV j.msg = true) :
    get_gps (run st inps) =
      (jLookup "lat" (msgFields i.msg), jLookup "lon" (msgFields i.msg),
       jLookup "alt" (msgFields i.msg), st.hdop) := by
  induction inps generalizing st with
  | nil => simp at hlast
  | cons a l ih =>
    have hla : isValidTPV a.msg = true := hall a (List.mem_cons_self a l)
    obtain ⟨f, lv, lnv, av, tv, hmsg, hc, hm, hlat, hlon, halt, htime⟩ :=
      isValidTPV_elim a.msg hla
    have hstep := update_gps_valid_tpv st f a.tCache a.tFix lv lnv av tv
      hc hm hlat hlon halt htime
    match l with
    | [] =>
      have hia : a = i := by simpa using hlast
      subst hia
      show get_gps (update_gps st a.msg a.tCache a.tFix) = _
      rw [hmsg, hstep]
      simp [get_gps, msgFields, hlat, hlon, halt]
    | b :: l' =>
      have hlast' : (b :: l').getLast? = some i := by
        rwa [List.getLast?_cons_cons] at hlast
      have hall' : ∀ j ∈ b :: l', isValidTPV j.msg = true :=
        fun j hj => hall j (List.mem_cons_of_mem a hj)
      show get_gps (run (update_gps st a.msg a.tCache a.tFix) (b :: l')) = _
      rw [hmsg, hstep]
      rw [ih _ hlast' hall']

/-- First concrete valid TPV poll: lat 1, lon 2, alt 3, time 4. -/
def i1 : PollInput :=
  ⟨.data (.obj [("class", .str "TPV"), ("mode", .num 3), ("lat", .num 1),
    ("lon", .num 2), ("alt", .num 3), ("time", .num 4)]), 100, 101⟩

/-- Second concrete valid TPV poll: lat 10, lon 20, alt 30, time 40. -/
def i2 : PollInput :=
  ⟨.data (.obj [("class", .str "TPV"), ("mode", .num 2), ("lat", .num 10),
    ("lon", .num 20), ("alt", .num 30), ("time", .num 40)]), 102, 103⟩

/-- Witness for C1: two concrete valid TPV sentences from the initial
state; the position is the second sentence's. -/
theorem C1_position_is_last_valid_tpv_witness :
    get_gps (run initState [i1, i2]) =
      (jLookup "lat" (msgFields i2.msg), jLookup "lon" (msgFields i2.msg),
       jLookup "alt" (msgFields i2.msg), initState.hdop) :=
  C1_position_is_last_valid_tpv initState [i1, i2] i2 (by decide) (by decide)

/-- C2: `get_corrected_timestamp` evaluated at the failing input
(gpsTimestamp 1000, fix cached at local time 500, now 501 then 502):
`timedelta`'s first positional argument is days, so one elapsed second is
added as 86400 seconds, and two calls one second apart differ by 86400,
not 1 as the claim requires. -/
theorem C2_timedelta_days :
    get_corrected_timestamp
        { initState with timestamp := some (.num 1000),
                         lastGpsReading := some 500 } 501 = .ok 87400 ∧
    get_corrected_timestamp
        { initState with timestamp := some (.num 1000),
                         lastGpsReading := some 500 } 502 = .ok 173800 ∧
    (87400 : ℚ) ≠ 1000 + (501 - 500) ∧
    (173800 - 87400 : ℚ) ≠ 502 - 501 := by
  have h1 : get_corrected_timestamp
      { initState with timestamp := some (.num 1000),
                       lastGpsReading := some 500 } 501 =
      .ok (1000 + 86400 * ((501 : ℚ) - 500)) := rfl
  have h2 : get_corrected_timestamp
      { initState with timestamp := some (.num 1000),
                       lastGpsReading := some 500 } 502 =
      .ok (1000 + 86400 * ((502 : ℚ) - 500)) := rfl
  refine ⟨?_, ?_, by norm_num, by norm_num⟩
  · rw [h1]; norm_num
  · rw [h2]; norm_num

/-- C4: `getSentence` raises AttributeError for every argument and every
state, because `which.toupper()` names a method Python's str does not
have; it never performs the case-insensitive lookup the claim and spec
describe. -/
theorem C4_getSentence_raises (st : GPSState) (which : String) :
    getSentence st which = .error .attributeError := by
  simp [getSentence, strMethods]

/-- C5: `getSentences` raises AttributeError in every state: it reads
`self.gpc_cache`, an attribute that is never assigned (the cache is
`self.gps_cache`), so it never returns the cached class names. -/
theorem C5_getSentences_raises (st : GPSState) :
    getSentences st = .error .attributeError := by
  simp [getSentences, gpsInstanceAttrs]

/-- C6: a TPV sentence with fix mode 0 or 1 is cached and then dropped
before the snapshot assignments, so `get_gps` is unchanged, and no
exception escapes the call. -/
theorem C6_nofix_tpv_noop (st : GPSState) (f : JFields) (t1 t2 : ℚ)
    (hc : jLookup "class" f = some (.str "TPV"))
    (hm : jLookup "mode" f = some (.num 0) ∨ jLookup "mode" f = some (.num 1)) :
    get_gps (update_gps st (.data (.obj f)) t1 t2) = get_gps st ∧
    (update_gps_call st (.data (.obj f)) t1 t2).2 = none := by
  have e1 : jLookup "class" (jSet f "lastReadingTime" (.num t1)) =
      some (.str "TPV") :=
    (jLookup_jSet_ne f "class" "lastReadingTime" (.num t1) (by decide)).trans hc
  rcases hm with hm | hm <;>
    simp [update_gps, update_gps_call, poll_body, get_gps, e1,
      (jLookup_jSet_ne f "mode" "lastReadingTime" (.num t1) (by decide)).trans hm]

/-- Witness for C6: the spec's scenario `{"class":"TPV","mode":1}` fed to
the initial state. -/
theorem C6_nofix_tpv_noop_witness :
    get_gps (update_gps initState
        (.data (.obj [("class", .str "TPV"), ("mode", .num 1)])) 5 6) =
      get_gps initState ∧
    (update_gps_call initState
        (.data (.obj [("class", .str "TPV"), ("mode", .num 1)])) 5 6).2 = none :=
  C6_nofix_tpv_noop initState [("class", .str "TPV"), ("mode", .num 1)] 5 6
    (by decide) (Or.inr (by decide))

/-- C7 counterexample: in the never-fed initial state,
`get_corrected_timestamp` raises a plain TypeError
(`datetime.fromtimestamp(None)`), not the distinct `UninitializedState`
condition the claim requires, and returns no sentinel value. -/
theorem C7_counterexample :
    get_corrected_timestamp initState 0 = .error .typeError ∧
    get_corrected_timestamp initState 0 ≠ .error .uninitializedState := by
  refine ⟨rfl, ?_⟩
  intro hcon
  simp [get_corrected_timestamp, initState] at hcon

/-- C7 amended: whenever no fix has ever been cached (`timestamp` still
`None`), `get_corrected_timestamp` raises TypeError — an undocumented
exception, not an `UninitializedState` condition or documented
sentinel. -/
theorem C7_uninitialized_typeError (st : GPSState) (now : ℚ)
    (h : st.timestamp = none) :
    get_corrected_timestamp st now = .error .typeError := by
  simp [get_corrected_timestamp, h]

/-- Witness for the amended C7 at the initial state. -/
theorem C7_uninitialized_typeError_witness :
    get_corrected_timestamp initState 3 = .error .typeError :=
  C7_uninitialized_typeError initState 3 rfl

/-- C8: a SKY sentence with an hdop field sets the snapshot's hdop to that
value and leaves lat, lon, alt unchanged. -/
theorem C8_sky_sets_hdop (st : GPSState) (f : JFields) (t1 t2 : ℚ) (h : JVal)
    (hc : jLookup "class" f = some (.str "SKY"))
    (hh : jLookup "hdop" f = some h) :
    (update_gps st (.data (.obj f)) t1 t2).hdop = some h ∧
    (update_gps st (.data (.obj f)) t1 t2).lat = st.lat ∧
    (update_gps st (.data (.obj f)) t1 t2).lon = st.lon ∧
    (update_gps st (.data (.obj f)) t1 t2).alt = st.alt := by
  have e1 : jLookup "class" (jSet f "lastReadingTime" (.num t1)) =
      some (.str "SKY") :=
    (jLookup_jSet_ne f "class" "lastReadingTime" (.num t1) (by decide)).trans hc
  have e2 : jLookup "hdop" (jSet f "lastReadingTime" (.num t1)) = some h :=
    (jLookup_jSet_ne f "hdop" "lastReadingTime" (.num t1) (by decide)).trans hh
  simp [update_gps, update_gps_call, poll_body, e1, e2]

/-- Witness for C8: the spec's scenario `{"class":"SKY","hdop":1.2}` fed
to the initial state (1.2 = 6/5). -/
theorem C8_sky_sets_hdop_witness :
    (update_gps initState
        (.data (.obj [("class", .str "SKY"), ("hdop", .num (6/5))])) 5 6).hdop =
      some (.num (6/5)) ∧
    (update_gps initState
        (.data (.obj [("class", .str "SKY"), ("hdop", .num (6/5))])) 5 6).lat =
      initState.lat ∧
    (update_gps initState
        (.data (.obj [("class", .str "SKY"), ("hdop", .num (6/5))])) 5 6).lon =
      initState.lon ∧
    (update_gps initState
        (.data (.obj [("class", .str "SKY"), ("hdop", .num (6/5))])) 5 6).alt =
      initState.alt :=
  C8_sky_sets_hdop initState [("class", .str "SKY"), ("hdop", .num (6/5))] 5 6
    (.num (6/5)) (by simp [jLookup]) (by simp [jLookup])

/-- C9: for every state and every poll outcome (socket read failure,
nothing pending, malformed JSON, any decoded document), the exception
escaping an `update_gps` call is always `none`: the outer
`except Exception` catches every per-iteration error, so the background
loop proceeds to its next iteration and can only stop via the running
flag. -/
theorem C9_no_error_escapes (st : GPSState) (msg : RawMsg) (t1 t2 : ℚ) :
    (update_gps_call st msg t1 t2).2 = none := by
  cases hp : poll_body st msg t1 t2 with
  | mk st' e => cases e <;> simp [update_gps_call, hp]

/-- C10: a message that decodes to JSON but is not an object carrying a
"class" field leaves the whole state — cache and every snapshot field —
exactly as it was: the iteration raises (TypeError or KeyError) before
any instance mutation and the outer handler swallows it. -/
theorem C10_classless_json_noop (st : GPSState) (j : JData) (t1 t2 : ℚ)
    (h : jClassOf j = none) :
    update_gps st (.data j) t1 t2 = st := by
  cases j with
  | nonObj => rfl
  | obj f =>
    have e1 : jLookup "class" (jSet f "lastReadingTime" (.num t1)) = none :=
      (jLookup_jSet_ne f "class" "lastReadingTime" (.num t1)
        (by decide)).trans (by simpa [jClassOf] using h)
    simp [update_gps, update_gps_call, poll_body, e1]

/-- Witness for C10: a JSON object with no "class" field fed to the
initial state leaves it untouched. -/
theorem C10_classless_json_noop_witness :
    update_gps initState (.data (.obj [("mode", .num 3), ("lat", .num 7)])) 1 2 =
      initState :=
  C10_classless_json_noop initState (.obj [("mode", .num 3), ("lat", .num 7)])
    1 2 (by decide)

/-- A concrete state in which every snapshot field already holds a
value. -/
def stC3 : GPSState :=
  { lat := some (.num 1), lon := some (.num 2), alt := some (.num 3),
    hdop := some (.num 4), timestamp := some (.num 5),
    lastGpsReading := some 6, gps_cache := [] }

/-- A TPV sentence with fix mode 3 whose "alt" field is missing. -/
def msgC3 : RawMsg :=
  .data (.obj [("class", .str "TPV"), ("mode", .num 3), ("lat", .num 10),
    ("lon", .num 20), ("time", .num 40)])

/-- C3 counterexample: processing a mode-3 TPV sentence that has lat and
lon but no alt does NOT leave all snapshot fields at their prior values —
lat and lon are overwritten before the KeyError on "alt" is caught — so
the claim as stated is false at this input. -/
theorem C3_counterexample :
    ¬ snapshotOf (update_gps stC3 msgC3 7 8) = snapshotOf stC3 := by
  decide

/-- C3 amended: the snapshot assignments run in source order lat, lon,
alt, time and stop at the first missing field.  Fields before the first
missing one take the sentence's values; the missing field, every later
field, the timestamp and the fix arrival time keep their prior values;
hdop is untouched. -/
theorem C3_first_missing_field_stops (st : GPSState) (f : JFields)
    (t1 t2 : ℚ)
    (hc : jLookup "class" f = some (.str "TPV"))
    (hm : jLookup "mode" f = some (.num 2) ∨ jLookup "mode" f = some (.num 3))
    (hmiss : jLookup "lat" f = none ∨ jLookup "lon" f = none ∨
      jLookup "alt" f = none ∨ jLookup "time" f = none) :
    (update_gps st (.data (.obj f)) t1 t2).lat =
      (if (jLookup "lat" f).isSome then jLookup "lat" f else st.lat) ∧
    (update_gps st (.data (.obj f)) t1 t2).lon =
      (if (jLookup "lat" f).isSome ∧ (jLookup "lon" f).isSome
        then jLookup "lon" f else st.lon) ∧
    (update_gps st (.data (.obj f)) t1 t2).alt =
      (if (jLookup "lat" f).isSome ∧ (jLookup "lon" f).isSome ∧
          (jLookup "alt" f).isSome
        then jLookup "alt" f else st.alt) ∧
    (update_gps st (.data (.obj f)) t1 t2).timestamp = st.timestamp ∧
    (update_gps st (.data (.obj f)) t1 t2).lastGpsReading =
      st.lastGpsReading ∧
    (update_gps st (.data (.obj f)) t1 t2).hdop = st.hdop := by
  have e1 : jLookup "class" (jSet f "lastReadingTime" (.num t1)) =
      some (.str "TPV") :=
    (jLookup_jSet_ne f "class" "lastReadingTime" (.num t1) (by decide)).trans hc
  have eLat : jLookup "lat" (jSet f "lastReadingTime" (.num t1)) =
      jLookup "lat" f :=
    jLookup_jSet_ne f "lat" "lastReadingTime" (.num t1) (by decide)
  have eLon : jLookup "lon" (jSet f "lastReadingTime" (.num t1)) =
      jLookup "lon" f :=
    jLookup_jSet_ne f "lon" "lastReadingTime" (.num t1) (by decide)
  have eAlt : jLookup "alt" (jSet f "lastReadingTime" (.num t1)) =
      jLookup "alt" f :=
    jLookup_jSet_ne f "alt" "lastReadingTime" (.num t1) (by decide)
  have eTime : jLookup "time" (jSet f "lastReadingTime" (.num t1)) =
      jLookup "time" f :=
    jLookup_jSet_ne f "time" "lastReadingTime" (.num t1) (by decide)
  obtain ⟨m, hmEq, hm01⟩ :
      ∃ m, jLookup "mode" f = some m ∧ ¬ (m = .num 0 ∨ m = .num 1) := by
    rcases hm with hm | hm
    · exact ⟨_, hm, by simp⟩
    · exact ⟨_, hm, by simp⟩
  have e2 : jLookup "mode" (jSet f "lastReadingTime" (.num t1)) = some m :=
    (jLookup_jSet_ne f "mode" "lastReadingTime" (.num t1) (by decide)).trans hmEq
  cases hl : jLookup "lat" f with
  | none =>
    simp [update_gps, update_gps_call, poll_body, e1, e2, hm01, eLat, hl]
  | some lv =>
    cases hlon : jLookup "lon" f with
    | none =>
      simp [update_gps, update_gps_call, poll_body, e1, e2, hm01, eLat, hl,
        eLon, hlon]
    | some lnv =>
      cases hal : jLookup "alt" f with
      | none =>
        simp [update_gps, update_gps_call, poll_body, e1, e2, hm01, eLat, hl,
          eLon, hlon, eAlt, hal]
      | some av =>
        cases htm : jLookup "time" f with
        | none =>
          simp [update_gps, update_gps_call, poll_body, e1, e2, hm01, eLat,
            hl, eLon, hlon, eAlt, hal, eTime, htm]
        | some tv =>
          exfalso
          rcases hmiss with h | h | h | h <;> simp_all

/-- Witness for the amended C3: the concrete sentence of the
counterexample (alt missing), processed from the fully populated concrete
state. -/
theorem C3_first_missing_field_stops_witness :
    (update_gps stC3 msgC3 7 8).lat =
      (if (jLookup "lat" (msgFields msgC3)).isSome
        then jLookup "lat" (msgFields msgC3) else stC3.lat) ∧
    (update_gps stC3 msgC3 7 8).lon =
      (if (jLookup "lat" (msgFields msgC3)).isSome ∧
          (jLookup "lon" (msgFields msgC3)).isSome
        then jLookup "lon" (msgFields msgC3) else stC3.lon) ∧
    (update_gps stC3 msgC3 7 8).alt =
      (if (jLookup "lat" (msgFields msgC3)).isSome ∧
          (jLookup "lon" (msgFields msgC3)).isSome ∧
          (jLookup "alt" (msgFields msgC3)).isSome
        then jLookup "alt" (msgFields msgC3) else stC3.alt) ∧
    (update_gps stC3 msgC3 7 8).timestamp = stC3.timestamp ∧
    (update_gps stC3 msgC3 7 8).lastGpsReading = stC3.lastGpsReading ∧
    (update_gps stC3 msgC3 7 8).hdop = stC3.hdop :=
  C3_first_missing_field_stops stC3 (msgFields msgC3) 7 8 (by decide)
    (Or.inr (by decide)) (Or.inr (Or.inr (Or.inl (by decide))))

end GPShandler
